import Mathlib

/-!
Verification of the git-switch profile manager (src/git_profile_manager.py and
src/git_profiles.py) against its natural-language specification.

The model below is a shallow embedding of the profile store, the validators,
the SSH-key / SSH-config lifecycle, the remote-URL rewriter and the connection
test classifier.  Strings handled at the character level (SSH-config lines,
URLs, stderr streams) are modelled as List Char; stored profile data uses
String.  External effects (existence of a key file, success of the external
key-generation tool, the git binary) enter as explicit boolean oracles, and
the model returns effect flags recording which external actions were taken.
-/

namespace GitSwitch

/-! ### Character classes used by the validation regexes -/

/-- ASCII uppercase letter, the class A-Z of the source regexes. -/
def isAsciiUpper (c : Char) : Bool := 'A' ≤ c && c ≤ 'Z'

/-- ASCII lowercase letter, the class a-z of the source regexes. -/
def isAsciiLower (c : Char) : Bool := 'a' ≤ c && c ≤ 'z'

/-- ASCII letter, the class a-zA-Z. -/
def isAsciiAlpha (c : Char) : Bool := isAsciiUpper c || isAsciiLower c

/-- ASCII digit, the class 0-9. -/
def isAsciiDigit (c : Char) : Bool := '0' ≤ c && c ≤ '9'

/-- ASCII alphanumeric, the class a-zA-Z0-9. -/
def isAsciiAlnum (c : Char) : Bool := isAsciiAlpha c || isAsciiDigit c

/-- Character admitted inside a username by USERNAME_PATTERN, class
a-zA-Z0-9 plus the hyphen. -/
def isUsernameInner (c : Char) : Bool := isAsciiAlnum c || c == '-'

/-! ### USERNAME_PATTERN and validate_username
Source: git_profile_manager.py lines 29 and 185-189.
USERNAME_PATTERN is the regex anchored by a caret and a dollar, with first
character alphanumeric and an optional group of inner characters ending in an
alphanumeric character.  In the re module the dollar asserts at the end of
the string or just before one newline that ends the string, so the matchers
below come in two layers: the core language of the regex body, and the
pattern match with the dollar semantics of the source. -/

/-- Core language of USERNAME_PATTERN (the regex body filling the whole
anchored slice): nonempty, first character alphanumeric, and the rest (if
any) is inner characters followed by a final alphanumeric character. -/
def usernameCoreMatch : List Char → Bool
  | [] => false
  | c :: cs =>
    isAsciiAlnum c &&
      (cs.isEmpty || (cs.dropLast.all isUsernameInner && isAsciiAlnum (cs.getLastD ' ')))

/-- The slice the dollar anchoring actually delimits: the string without a
single trailing newline, if one is present. -/
def stripTrailingNewline (l : List Char) : List Char :=
  if l.getLastD ' ' == '\n' then l.dropLast else l

/-- USERNAME_PATTERN.match with the dollar semantics of the re module: the
body may fill the whole string, or, when the string ends in a newline, the
whole string except that final newline. -/
def usernamePatternMatch (s : List Char) : Bool :=
  usernameCoreMatch s || (s.getLastD ' ' == '\n' && usernameCoreMatch s.dropLast)

/-- validate_username from git_profile_manager.py lines 185-189: nonempty,
length at most 39, and matched by USERNAME_PATTERN. -/
def validate_username (s : String) : Bool :=
  (!s.isEmpty) && s.length ≤ 39 && usernamePatternMatch s.toList

/-! ### EMAIL_PATTERN and validate_email
Source: git_profile_manager.py lines 28 and 181-183. -/

/-- Character of the local part class of EMAIL_PATTERN. -/
def isLocalChar (c : Char) : Bool :=
  isAsciiAlnum c || c == '.' || c == '_' || c == '%' || c == '+' || c == '-'

/-- Character of the domain class of EMAIL_PATTERN. -/
def isDomainChar (c : Char) : Bool := isAsciiAlnum c || c == '.' || c == '-'

/-- Top-level-domain check of EMAIL_PATTERN: at least two ASCII letters. -/
def tldOk (t : List Char) : Bool := decide (2 ≤ t.length) && t.all isAsciiAlpha

/-- Checks that the text after the at-sign decomposes as a nonempty domain
part, a dot, and a valid top-level domain.  The flag records whether at least
one domain character has been consumed so far. -/
def domainRestOk (hasDomain : Bool) : List Char → Bool
  | [] => false
  | c :: rest =>
    (hasDomain && c == '.' && tldOk rest) || (isDomainChar c && domainRestOk true rest)

/-- Core language of EMAIL_PATTERN (the regex body filling the whole
anchored slice).  The at-sign of any match is necessarily the first at-sign
of the string, because no character class of the regex contains the
at-sign. -/
def emailCoreMatch (s : List Char) : Bool :=
  match s.dropWhile (fun c => !(c == '@')) with
  | '@' :: rest =>
    (!(s.takeWhile (fun c => !(c == '@'))).isEmpty) &&
      (s.takeWhile (fun c => !(c == '@'))).all isLocalChar && domainRestOk false rest
  | _ => false

/-- EMAIL_PATTERN.match with the dollar semantics of the re module: the body
may fill the whole string, or, when the string ends in a newline, the whole
string except that final newline. -/
def emailPatternMatch (s : List Char) : Bool :=
  emailCoreMatch s || (s.getLastD ' ' == '\n' && emailCoreMatch s.dropLast)

/-- validate_email from git_profile_manager.py lines 181-183. -/
def validate_email (s : String) : Bool := emailPatternMatch s.toList

/-! ### Profile store
Source: git_profile_manager.py load_profiles / save_profiles (lines 126-147)
and the profile dictionaries built in git_profiles.py.  The JSON store is
modelled as an ordered association list keyed by profile name; loading the
store back is the identity on this state. -/

/-- A stored profile record.  The JSON value written by _create_profile has
exactly the fields name, email and ssh_key; a structure with exactly these
fields models the record with no other fields.  ssh_key is optional in the
data model (a profile may exist without a key). -/
structure Profile where
  name : String
  email : String
  ssh_key : Option String
deriving DecidableEq, Repr

/-- The profile store: an ordered mapping from profile name to Profile. -/
abbrev Store := List (String × Profile)

/-- Lookup of a profile name in the store (dictionary indexing). -/
def lookupProfile : Store → String → Option Profile
  | [], _ => none
  | kv :: rest, n => if kv.1 == n then some kv.2 else lookupProfile rest n

/-- Dictionary assignment: replace the binding of an existing key in place,
otherwise append the new binding at the end (Python dict semantics). -/
def storeSet : Store → String → Profile → Store
  | [], n, p => [(n, p)]
  | kv :: rest, n, p => if kv.1 == n then (n, p) :: rest else kv :: storeSet rest n p

/-- Dictionary deletion of a key (Python del). -/
def storeErase : Store → String → Store
  | [], _ => []
  | kv :: rest, n => if kv.1 == n then rest else kv :: storeErase rest n

/-- _username_exists from git_profiles.py lines 138-141. -/
def username_exists (st : Store) (username : String) : Bool :=
  (lookupProfile st username).isSome

/-! ### generate_ssh_key
Source: git_profile_manager.py lines 191-244.  The deterministic key path is
SSH_DIR / id_rsa_<username> with SSH_DIR the .ssh directory under the home
directory.  Whether the key file already exists and whether the external
ssh-keygen tool succeeds are oracle inputs; the outcome records the returned
value and the externally visible effects. -/

/-- The deterministic private-key path for a profile name. -/
def keyFilePath (home username : String) : String :=
  home ++ "/.ssh/id_rsa_" ++ username

/-- Observable outcome of generate_ssh_key: the returned optional key path,
whether a warning was printed, whether ssh-keygen was invoked, and whether a
host-alias stanza was appended to the SSH config. -/
structure KeygenOutcome where
  result : Option String
  warned : Bool
  keygenInvoked : Bool
  sshConfigAppended : Bool
deriving DecidableEq, Repr

/-- generate_ssh_key from git_profile_manager.py lines 191-202 together with
_create_ssh_key (lines 217-244).  If the key file already exists the function
prints a warning and returns the existing path without invoking ssh-keygen;
otherwise it invokes ssh-keygen and returns the path on success, nothing on
failure. -/
def generate_ssh_key (home : String) (keyExists toolOk : Bool)
    (_email username : String) : KeygenOutcome :=
  if keyExists then
    { result := some (keyFilePath home username), warned := true,
      keygenInvoked := false, sshConfigAppended := false }
  else if toolOk then
    { result := some (keyFilePath home username), warned := false,
      keygenInvoked := true, sshConfigAppended := true }
  else
    { result := none, warned := false,
      keygenInvoked := true, sshConfigAppended := false }

/-! ### _create_profile and the add-profile input gate
Source: git_profiles.py lines 88-167. -/

/-- Result of one profile-creation attempt: the resulting store and the
externally visible effects. -/
structure CreateResult where
  store : Store
  created : Bool
  keygenInvoked : Bool
  storeSaved : Bool
  gitConfigSet : Bool
deriving DecidableEq, Repr

/-- _create_profile from git_profiles.py lines 143-167: generate the SSH key;
on failure stop with no store write; on success write the three-field record
under the username key, save the store and activate the identity as the
global Git config. -/
def create_profile (home : String) (keyExists toolOk : Bool) (st : Store)
    (username email : String) : CreateResult :=
  let kg := generate_ssh_key home keyExists toolOk email username
  match kg.result with
  | none =>
    { store := st, created := false, keygenInvoked := kg.keygenInvoked,
      storeSaved := false, gitConfigSet := false }
  | some keyFile =>
    { store := storeSet st username
        { name := username, email := email, ssh_key := some keyFile },
      created := true, keygenInvoked := kg.keygenInvoked,
      storeSaved := true, gitConfigSet := true }

/-- The acceptance test applied to one username input by _get_valid_username
(git_profiles.py lines 104-121): nonempty, valid format, and not already
present in the store. -/
def acceptNewUsername (st : Store) (username : String) : Bool :=
  (!username.isEmpty) && validate_username username && !username_exists st username

/-- One attempt of the add-profile flow: a username that fails the acceptance
test is rejected before any side effect (the interactive loop re-prompts);
an accepted username proceeds to _create_profile. -/
def attemptAddProfile (home : String) (keyExists toolOk : Bool) (st : Store)
    (username email : String) : CreateResult :=
  if acceptNewUsername st username then
    create_profile home keyExists toolOk st username email
  else
    { store := st, created := false, keygenInvoked := false,
      storeSaved := false, gitConfigSet := false }

/-! ### Python string primitives used by the source
substring containment (the in operator), startswith, split and replace. -/

/-- Python substring containment: needle in hay. -/
def containsSub (needle : List Char) : List Char → Bool
  | [] => needle.isEmpty
  | c :: rest => needle.isPrefixOf (c :: rest) || containsSub needle rest

/-- Python str.startswith. -/
def pyStartswith (p s : List Char) : Bool := p.isPrefixOf s

/-- Fuelled worker for Python str.split with a nonempty separator: split on
every leftmost non-overlapping occurrence. -/
def pysplitF (sep : List Char) : Nat → List Char → List (List Char)
  | 0, _ => []
  | _ + 1, [] => [[]]
  | fuel + 1, c :: rest =>
    if sep.isPrefixOf (c :: rest) then
      [] :: pysplitF sep fuel (List.drop (sep.length - 1) rest)
    else
      match pysplitF sep fuel rest with
      | [] => [[c]]
      | p :: ps => (c :: p) :: ps

/-- Python str.split with a nonempty separator.  Each processed character
consumes at least one unit of fuel, so length-plus-one fuel always suffices. -/
def pysplit (sep s : List Char) : List (List Char) := pysplitF sep (s.length + 1) s

/-- Fuelled worker for Python str.replace: replace every leftmost
non-overlapping occurrence. -/
def pyreplaceF (old new : List Char) : Nat → List Char → List Char
  | 0, _ => []
  | _ + 1, [] => []
  | fuel + 1, c :: rest =>
    if old.isPrefixOf (c :: rest) then
      new ++ pyreplaceF old new fuel (List.drop (old.length - 1) rest)
    else
      c :: pyreplaceF old new fuel rest

/-- Python str.replace with a nonempty pattern. -/
def pyreplace (old new s : List Char) : List Char := pyreplaceF old new (s.length + 1) s

/-! ### SSH client configuration model
Source: update_ssh_config (git_profile_manager.py lines 252-276) writes the
stanza; remove_from_ssh_config and _update_ssh_config_file (git_profiles.py
lines 382-413) remove it.  A config file is a list of lines, each line a
character list that keeps its trailing newline exactly as Python readlines
returns it. -/

/-- One line of a text file. -/
abbrev Line := List Char

/-- A blank separator line. -/
def blankLine : Line := ['\n']

/-- The marker comment line heading the stanza of a profile. -/
def markerLine (u : List Char) : Line := "# Git profile: ".toList ++ u ++ ['\n']

/-- The Host line of a stanza. -/
def hostLine (u : List Char) : Line := "Host github.com-".toList ++ u ++ ['\n']

/-- The HostName line of a stanza. -/
def hostNameLine : Line := "    HostName github.com\n".toList

/-- The User line of a stanza. -/
def userLine : Line := "    User git\n".toList

/-- The IdentityFile line of a stanza, holding the deterministic key path. -/
def identityFileLine (home u : List Char) : Line :=
  "    IdentityFile ".toList ++ home ++ "/.ssh/id_rsa_".toList ++ u ++ ['\n']

/-- The IdentitiesOnly line of a stanza. -/
def identitiesOnlyLine : Line := "    IdentitiesOnly yes\n".toList

/-- The lines appended by update_ssh_config for one profile, as Python
readlines later returns them: a leading blank line, the marker comment, five
body lines, and a trailing blank line. -/
def stanzaLines (home u : List Char) : List Line :=
  [blankLine, markerLine u, hostLine u, hostNameLine, userLine,
   identityFileLine home u, identitiesOnlyLine, blankLine]

/-- Python whitespace as stripped by str.strip. -/
def isSpaceChar (c : Char) : Bool :=
  c == ' ' || c == '\t' || c == '\n' || c == '\r' || c == '\x0B' || c == '\x0C'

/-- line.strip() == "" in the source: the line is entirely whitespace. -/
def isBlankLine (l : Line) : Bool := l.all isSpaceChar

/-- The text whose containment in a line starts skipping:
f"Git profile: {username}". -/
def profileTrigger (u : List Char) : List Char := "Git profile: ".toList ++ u

/-- The line-filtering loop of _update_ssh_config_file (git_profiles.py lines
399-410): a line containing the trigger starts skipping and is dropped; while
skipping, a blank line stops skipping and is dropped, and any other line is
dropped; otherwise the line is kept. -/
def dropProfileStanzas (trig : List Char) : Bool → List Line → List Line
  | _, [] => []
  | skip, l :: ls =>
    if containsSub trig l then dropProfileStanzas trig true ls
    else if skip && isBlankLine l then dropProfileStanzas trig false ls
    else if skip then dropProfileStanzas trig skip ls
    else l :: dropProfileStanzas trig skip ls

/-- _update_ssh_config_file from git_profiles.py lines 393-413: rewrite the
file through the filtering loop, starting outside any stanza. -/
def update_ssh_config_file (username : List Char) (lines : List Line) : List Line :=
  dropProfileStanzas (profileTrigger username) false lines

/-- remove_from_ssh_config from git_profiles.py lines 382-391 acting on the
config file content, where none models an absent file: a no-op when the file
does not exist, otherwise the rewrite above. -/
def remove_from_ssh_config (username : List Char) : Option (List Line) → Option (List Line)
  | none => none
  | some lines => some (update_ssh_config_file username lines)

/-! ### Remote URL rewriting
Source: git_profiles.py lines 505-530. -/

/-- _convert_ssh_url from git_profiles.py lines 515-525. -/
def convert_ssh_url (currentUrl username : List Char) : List Char :=
  if containsSub ("github.com-".toList) currentUrl then
    let parts := pysplit ("github.com-".toList) currentUrl
    let oldProfile := (pysplit [':'] (parts.getD 1 [])).getD 0 []
    pyreplace ("github.com-".toList ++ oldProfile ++ [':'])
      ("github.com-".toList ++ username ++ [':']) currentUrl
  else
    let repoPart := (pysplit ("github.com:".toList) currentUrl).getD 1 []
    "git@github.com-".toList ++ username ++ [':'] ++ repoPart

/-- _convert_https_url from git_profiles.py lines 527-530. -/
def convert_https_url (currentUrl username : List Char) : List Char :=
  "git@github.com-".toList ++ username ++ [':'] ++
    pyreplace ("https://github.com/".toList) [] currentUrl

/-- _convert_url_for_profile from git_profiles.py lines 505-513.  The boolean
component records whether the unsupported-format warning was emitted. -/
def convert_url_for_profile (currentUrl username : List Char) :
    Option (List Char) × Bool :=
  if pyStartswith ("git@github.com".toList) currentUrl then
    (some (convert_ssh_url currentUrl username), false)
  else if pyStartswith ("https://github.com/".toList) currentUrl then
    (some (convert_https_url currentUrl username), false)
  else
    (none, true)

/-! ### Connection test classification
Source: _perform_ssh_test (git_profile_manager.py lines 455-469) runs ssh with
a 15-second timeout; a subprocess timeout is caught separately in
test_github_connection (line 434) and reported as a connection timeout, while
a completed probe is classified by _handle_ssh_test_result (lines 482-492)
from the lowercased captured stderr alone, ignoring the exit code. -/

/-- How the bounded SSH probe ended: completed with an exit code and captured
stderr, or exceeded the 15-second bound. -/
inductive ProbeResult where
  | completed (returncode : Int) (stderr : List Char)
  | timedOut
deriving DecidableEq, Repr

/-- Classification of the connection test. -/
inductive SshTestOutcome where
  | success
  | authFailure
  | timeout
deriving DecidableEq, Repr

/-- The authentication-confirmation phrase tested by
_handle_ssh_test_result. -/
def successPhrase : List Char := "successfully authenticated".toList

/-- Python str.lower on the captured stream. -/
def pyLower (l : List Char) : List Char := l.map Char.toLower

/-- The classification performed by test_github_connection: a timeout is
reported as its own outcome; a completed probe is a success exactly when the
lowercased stderr contains the confirmation phrase, regardless of the exit
code, and an authentication failure otherwise. -/
def classify_ssh_test : ProbeResult → SshTestOutcome
  | .timedOut => .timeout
  | .completed _ stderr =>
    if containsSub successPhrase (pyLower stderr) then .success else .authFailure

/-! ### Complete profile removal
Source: git_profiles.py lines 296-364 and 373-380. -/

/-- The machine state touched by profile deletion: the global Git identity,
existence of the private and public key files of the profile being deleted,
the SSH config file content (none when absent), and the profile store. -/
structure SysState where
  gitConfig : Option (String × String)
  privKeyExists : Bool
  pubKeyExists : Bool
  sshConfig : Option (List Line)
  profiles : Store
deriving DecidableEq, Repr

/-- The externally visible deletion steps, in the order they are emitted. -/
inductive RemovalStep where
  | clearGitConfig
  | removeKeyFiles
  | removeSshStanza
  | removeStoreEntry
deriving DecidableEq, Repr

/-- _cleanup_current_profile_with_feedback from git_profiles.py lines 317-328:
clear the global Git config only when both the active name and email equal
the profile being deleted; otherwise leave it unchanged. -/
def cleanup_current_profile (st : SysState) (p : Profile) :
    SysState × List RemovalStep :=
  match st.gitConfig with
  | some cfg =>
    if cfg.1 == p.name && cfg.2 == p.email then
      ({ st with gitConfig := none }, [.clearGitConfig])
    else (st, [])
  | none => (st, [])

/-- _cleanup_ssh_files_with_feedback from git_profiles.py lines 330-364:
nothing to do for a profile without a key; otherwise delete the private and
public key files (a missing file only produces a warning) and then remove the
SSH-config stanza. -/
def cleanup_ssh_files (st : SysState) (username : String) (p : Profile) :
    SysState × List RemovalStep :=
  match p.ssh_key with
  | none => (st, [])
  | some _ =>
    ({ st with
        privKeyExists := false
        pubKeyExists := false
        sshConfig := remove_from_ssh_config username.toList st.sshConfig },
     [.removeKeyFiles, .removeSshStanza])

/-- _perform_complete_profile_removal from git_profiles.py lines 296-315:
conditionally clear the Git config, then clean up the SSH files and stanza,
then delete the store entry and save the store. -/
def perform_complete_profile_removal (st : SysState) (username : String)
    (p : Profile) : SysState × List RemovalStep :=
  let r1 := cleanup_current_profile st p
  let r2 := cleanup_ssh_files r1.1 username p
  ({ r2.1 with profiles := storeErase r2.1.profiles username },
   r1.2 ++ r2.2 ++ [.removeStoreEntry])

/-! ### Helper lemmas about substring containment and username characters -/

/-- containsSub decides list infixhood. -/
theorem containsSub_eq_true_iff (n h : List Char) : containsSub n h = true ↔ n <:+: h := by
  induction h with
  | nil => simp [containsSub, List.isEmpty_iff]
  | cons c rest ih =>
    simp [containsSub, List.infix_cons_iff, ih, Bool.or_eq_true]

/-- A needle holding a character absent from the hay is not contained. -/
theorem containsSub_eq_false_of_not_mem {ch : Char} {n h : List Char}
    (hn : ch ∈ n) (hh : ch ∉ h) : containsSub n h = false := by
  rcases hc : containsSub n h with _ | _
  · rfl
  · exact absurd (((containsSub_eq_true_iff n h).mp hc).subset hn) hh

/-- Every character of a string matched by USERNAME_PATTERN is alphanumeric
or a hyphen. -/
theorem usernamePattern_chars {l : List Char} (h : usernameCoreMatch l = true) :
    ∀ c ∈ l, isUsernameInner c = true := by
  cases l with
  | nil => simp [usernameCoreMatch] at h
  | cons a cs =>
    rw [usernameCoreMatch, Bool.and_eq_true, Bool.or_eq_true, Bool.and_eq_true] at h
    obtain ⟨ha, hrest⟩ := h
    intro c hc
    rcases List.mem_cons.mp hc with rfl | hcs
    · simp [isUsernameInner, ha]
    · rcases hrest with he | ⟨hdl, hlast⟩
      · rw [List.isEmpty_iff] at he
        subst he
        simp at hcs
      · rcases List.eq_nil_or_concat cs with rfl | ⟨ys, y, rfl⟩
        · simp at hcs
        · rw [List.concat_eq_append] at hcs hdl hlast
          rw [List.dropLast_concat] at hdl
          rw [List.getLastD_concat] at hlast
          rcases List.mem_append.mp hcs with hy | hy
          · exact List.all_eq_true.mp hdl c hy
          · rcases List.mem_singleton.mp hy with rfl
            simp [isUsernameInner, hlast]

/-- A character that is neither alphanumeric nor a hyphen does not occur in a
string matched by USERNAME_PATTERN. -/
theorem usernamePattern_not_mem {l : List Char} (h : usernameCoreMatch l = true)
    {c : Char} (hc : isUsernameInner c = false) : c ∉ l := by
  intro hm
  have := usernamePattern_chars h c hm
  rw [hc] at this
  exact Bool.false_ne_true this

/-- The colon belongs to every profile trigger. -/
theorem colon_mem_trigger (N : List Char) : ':' ∈ profileTrigger N :=
  List.mem_append_left _ (by decide)

/-- The space belongs to every profile trigger. -/
theorem space_mem_trigger (N : List Char) : ' ' ∈ profileTrigger N :=
  List.mem_append_left _ (by decide)

/-- No colon in a blank line, hence no trigger there. -/
theorem trigger_not_in_blank (N : List Char) :
    containsSub (profileTrigger N) blankLine = false :=
  containsSub_eq_false_of_not_mem (colon_mem_trigger N) (by decide)

/-- No colon in the Host line of a valid username, hence no trigger there. -/
theorem trigger_not_in_hostLine (N : List Char) {u : List Char}
    (hu : usernameCoreMatch u = true) :
    containsSub (profileTrigger N) (hostLine u) = false := by
  refine containsSub_eq_false_of_not_mem (colon_mem_trigger N) ?_
  intro hm
  rw [hostLine] at hm
  rcases List.mem_append.mp hm with hm2 | hm2
  · rcases List.mem_append.mp hm2 with hm3 | hm3
    · revert hm3; decide
    · exact usernamePattern_not_mem hu (by decide) hm3
  · revert hm2; decide

/-- No colon in the HostName line, hence no trigger there. -/
theorem trigger_not_in_hostNameLine (N : List Char) :
    containsSub (profileTrigger N) hostNameLine = false :=
  containsSub_eq_false_of_not_mem (colon_mem_trigger N) (by decide)

/-- No colon in the User line, hence no trigger there. -/
theorem trigger_not_in_userLine (N : List Char) :
    containsSub (profileTrigger N) userLine = false :=
  containsSub_eq_false_of_not_mem (colon_mem_trigger N) (by decide)

/-- No colon in the IdentityFile line when the home directory path is
colon-free and the username is valid, hence no trigger there. -/
theorem trigger_not_in_identityFileLine (N : List Char) {home u : List Char}
    (hhome : ':' ∉ home) (hu : usernameCoreMatch u = true) :
    containsSub (profileTrigger N) (identityFileLine home u) = false := by
  refine containsSub_eq_false_of_not_mem (colon_mem_trigger N) ?_
  intro hm
  rw [identityFileLine] at hm
  rcases List.mem_append.mp hm with hm2 | hm2
  · rcases List.mem_append.mp hm2 with hm3 | hm3
    · rcases List.mem_append.mp hm3 with hm4 | hm4
      · rcases List.mem_append.mp hm4 with hm5 | hm5
        · revert hm5; decide
        · exact hhome hm5
      · revert hm4; decide
    · exact usernamePattern_not_mem hu (by decide) hm3
  · revert hm2; decide

/-- No colon in the IdentitiesOnly line, hence no trigger there. -/
theorem trigger_not_in_identitiesOnlyLine (N : List Char) :
    containsSub (profileTrigger N) identitiesOnlyLine = false :=
  containsSub_eq_false_of_not_mem (colon_mem_trigger N) (by decide)

/-- Peeling step: an infix occurrence in a cons list whose head differs from
the needle head occurs in the tail. -/
theorem infix_cons_elim {a b : Char} {l t : List Char} (hne : a ≠ b)
    (h : (a :: l) <:+: (b :: t)) : (a :: l) <:+: t := by
  rcases List.infix_cons_iff.mp h with hp | h2
  · exact absurd (List.cons_prefix_cons.mp hp).1 hne
  · exact h2

/-- Occurrence analysis for the marker line: if the trigger of a valid
username N occurs in the marker line of a valid username u, the occurrence
must start right after the comment hash, so N is a prefix of u. -/
theorem trigger_occurrence_in_marker {N u : List Char}
    (hN : usernameCoreMatch N = true) (hu : usernameCoreMatch u = true)
    (h : profileTrigger N <:+: markerLine u) : N <+: u := by
  have hnl : '\n' ∉ N := usernamePattern_not_mem hN (by decide)
  have hsp : ' ' ∉ u := usernamePattern_not_mem hu (by decide)
  have hT : profileTrigger N =
      'G' :: 'i' :: 't' :: ' ' :: 'p' :: 'r' :: 'o' :: 'f' :: 'i' :: 'l' :: 'e' :: ':' :: ' ' :: N := rfl
  have hM : markerLine u =
      '#' :: ' ' :: 'G' :: 'i' :: 't' :: ' ' :: 'p' :: 'r' :: 'o' :: 'f' :: 'i' :: 'l' :: 'e' :: ':' :: ' ' :: (u ++ ['\n']) := rfl
  rw [hT, hM] at h
  replace h := infix_cons_elim (by decide) h
  replace h := infix_cons_elim (by decide) h
  rcases List.infix_cons_iff.mp h with hp | h2
  · have hp2 : ['G', 'i', 't', ' ', 'p', 'r', 'o', 'f', 'i', 'l', 'e', ':', ' '] ++ N <+:
        ['G', 'i', 't', ' ', 'p', 'r', 'o', 'f', 'i', 'l', 'e', ':', ' '] ++ (u ++ ['\n']) := hp
    rw [List.prefix_append_right_inj] at hp2
    rcases List.prefix_concat_iff.mp hp2 with heq | hpre
    · exfalso
      apply hnl
      rw [heq]
      exact List.mem_append_right _ (by decide)
    · exact hpre
  · exfalso
    iterate 12 replace h2 := infix_cons_elim (by decide) h2
    have hmem := h2.subset (space_mem_trigger N)
    rcases List.mem_append.mp hmem with hin | hin
    · exact hsp hin
    · revert hin; decide

/-- The trigger of a valid username N occurs in the marker line of a valid
username u exactly when N is a prefix of u: substring matching on marker
lines reduces to name-prefix matching. -/
theorem containsSub_trigger_marker {N u : List Char}
    (hN : usernameCoreMatch N = true) (hu : usernameCoreMatch u = true) :
    containsSub (profileTrigger N) (markerLine u) = N.isPrefixOf u := by
  rcases hp : N.isPrefixOf u with _ | _
  · rcases hc : containsSub (profileTrigger N) (markerLine u) with _ | _
    · rfl
    · exfalso
      have hpre := trigger_occurrence_in_marker hN hu ((containsSub_eq_true_iff _ _).mp hc)
      rw [← List.isPrefixOf_iff_prefix] at hpre
      rw [hp] at hpre
      exact Bool.false_ne_true hpre
  · rw [containsSub_eq_true_iff]
    rw [List.isPrefixOf_iff_prefix] at hp
    obtain ⟨t, rfl⟩ := hp
    refine ⟨['#', ' '], t ++ ['\n'], ?_⟩
    show ['#', ' '] ++ profileTrigger N ++ (t ++ ['\n']) = markerLine (N ++ t)
    rw [markerLine, profileTrigger]
    simp [List.append_assoc]

/-- A line holding a non-whitespace character is not blank. -/
theorem not_blank_of_mem (c : Char) {l : Line} (hc : isSpaceChar c = false)
    (hm : c ∈ l) : isBlankLine l = false := by
  rcases hb : isBlankLine l with _ | _
  · rfl
  · rw [isBlankLine, List.all_eq_true] at hb
    rw [hb c hm] at hc
    exact absurd hc (by decide)

/-- The Host line of a stanza is not blank. -/
theorem hostLine_not_blank (u : List Char) : isBlankLine (hostLine u) = false :=
  not_blank_of_mem 'H' (by decide)
    (List.mem_append_left _ (List.mem_append_left _ (by decide)))

/-- The IdentityFile line of a stanza is not blank. -/
theorem identityFileLine_not_blank (home u : List Char) :
    isBlankLine (identityFileLine home u) = false :=
  not_blank_of_mem 'I' (by decide)
    (List.mem_append_left _ (List.mem_append_left _ (List.mem_append_left _
      (List.mem_append_left _ (by decide)))))

/-- One pass of the filtering loop over a whole stanza followed by anything:
a stanza whose username has the removed name as a prefix collapses to its
leading blank line, any other stanza passes through unchanged, and the loop
continues on the remainder outside any stanza. -/
theorem dropProfileStanzas_stanza_append {home N u : List Char}
    (hN : usernameCoreMatch N = true) (hu : usernameCoreMatch u = true)
    (hhome : ':' ∉ home) (rest : List Line) :
    dropProfileStanzas (profileTrigger N) false (stanzaLines home u ++ rest) =
      (if N.isPrefixOf u then [blankLine] else stanzaLines home u) ++
        dropProfileStanzas (profileTrigger N) false rest := by
  have hmark := containsSub_trigger_marker hN hu
  have hb := trigger_not_in_blank N
  have hh := trigger_not_in_hostLine N hu
  have hhn := trigger_not_in_hostNameLine N
  have hul := trigger_not_in_userLine N
  have hif := trigger_not_in_identityFileLine N hhome hu
  have hio := trigger_not_in_identitiesOnlyLine N
  have hbb : isBlankLine blankLine = true := by decide
  have hnb1 := hostLine_not_blank u
  have hnb2 : isBlankLine hostNameLine = false := by decide
  have hnb3 : isBlankLine userLine = false := by decide
  have hnb4 := identityFileLine_not_blank home u
  have hnb5 : isBlankLine identitiesOnlyLine = false := by decide
  rcases hp : N.isPrefixOf u with _ | _ <;> rw [hp] at hmark <;>
    simp [stanzaLines, dropProfileStanzas, hmark, hb, hh, hhn, hul, hif, hio,
      hbb, hnb1, hnb2, hnb3, hnb4, hnb5]

/-- The filtering loop over a file made of whole stanzas: every stanza whose
username has the removed name as a prefix collapses to its leading blank
line; every other stanza is untouched. -/
theorem dropProfileStanzas_flatten {home N : List Char} {us : List (List Char)}
    (hN : usernameCoreMatch N = true)
    (hus : ∀ u ∈ us, usernameCoreMatch u = true) (hhome : ':' ∉ home) :
    dropProfileStanzas (profileTrigger N) false (us.map (stanzaLines home)).flatten =
      (us.map (fun u => if N.isPrefixOf u then [blankLine] else stanzaLines home u)).flatten := by
  induction us with
  | nil => rfl
  | cons u vs ih =>
    simp only [List.map_cons, List.flatten_cons]
    rw [dropProfileStanzas_stanza_append hN (hus u (by simp)) hhome,
      ih (fun v hv => hus v (by simp [hv]))]

/-! ### Store lemmas -/

/-- Looking up a key just assigned yields the assigned profile. -/
theorem lookupProfile_storeSet (st : Store) (n : String) (p : Profile) :
    lookupProfile (storeSet st n p) n = some p := by
  induction st with
  | nil => simp [storeSet, lookupProfile]
  | cons kv rest ih =>
    rcases hk : (kv.1 == n) with _ | _
    · simp [storeSet, hk, lookupProfile, ih]
    · simp [storeSet, hk, lookupProfile]

/-- A key absent from the store looks up to nothing. -/
theorem lookupProfile_eq_none_of_not_mem {st : Store} {n : String}
    (h : n ∉ st.map Prod.fst) : lookupProfile st n = none := by
  induction st with
  | nil => rfl
  | cons kv rest ih =>
    rw [List.map_cons, List.mem_cons] at h
    push_neg at h
    have hk : (kv.1 == n) = false := by
      rcases hk2 : (kv.1 == n) with _ | _
      · rfl
      · exact absurd (eq_of_beq hk2).symm h.1
    simp [lookupProfile, hk, ih h.2]

/-- Deleting a key from a store with pairwise distinct keys makes it
unfindable. -/
theorem lookupProfile_storeErase {st : Store} {n : String}
    (hnd : (st.map Prod.fst).Nodup) : lookupProfile (storeErase st n) n = none := by
  induction st with
  | nil => rfl
  | cons kv rest ih =>
    rw [List.map_cons, List.nodup_cons] at hnd
    rcases hk : (kv.1 == n) with _ | _
    · simp [storeErase, hk, lookupProfile, ih hnd.2]
    · have he : kv.1 = n := eq_of_beq hk
      rw [storeErase, if_pos hk]
      exact lookupProfile_eq_none_of_not_mem (he ▸ hnd.1)

/-! ### Username pattern characterization -/

/-- USERNAME_PATTERN in elementary terms: nonempty, alphanumeric first and
last character, and only alphanumeric or hyphen characters throughout. -/
theorem usernameCoreMatch_iff {l : List Char} :
    usernameCoreMatch l = true ↔
      (l ≠ [] ∧ isAsciiAlnum (l.headD ' ') = true ∧
        isAsciiAlnum (l.getLastD ' ') = true ∧ ∀ c ∈ l, isUsernameInner c = true) := by
  constructor
  · intro h
    have hall := usernamePattern_chars h
    cases l with
    | nil => simp [usernameCoreMatch] at h
    | cons a cs =>
      rw [usernameCoreMatch, Bool.and_eq_true, Bool.or_eq_true, Bool.and_eq_true] at h
      obtain ⟨ha, hrest⟩ := h
      refine ⟨by simp, by simpa using ha, ?_, hall⟩
      rcases List.eq_nil_or_concat cs with rfl | ⟨ys, y, rfl⟩
      · simpa using ha
      · rw [List.concat_eq_append] at hrest ⊢
        rcases hrest with he | ⟨_, hlast⟩
        · rw [List.isEmpty_iff] at he
          exact absurd he (by simp)
        · rw [List.getLastD_concat] at hlast
          rw [List.getLastD_cons, List.getLastD_concat]
          exact hlast
  · rintro ⟨hne, hh, hl, hall⟩
    cases l with
    | nil => exact absurd rfl hne
    | cons a cs =>
      rw [usernameCoreMatch, Bool.and_eq_true, Bool.or_eq_true]
      refine ⟨by simpa using hh, ?_⟩
      rcases List.eq_nil_or_concat cs with rfl | ⟨ys, y, rfl⟩
      · left; rfl
      · right
        rw [List.concat_eq_append] at hall ⊢
        rw [Bool.and_eq_true, List.getLastD_concat, List.dropLast_concat]
        refine ⟨List.all_eq_true.mpr fun c hc => hall c ?_, ?_⟩
        · exact List.mem_cons_of_mem a (List.mem_append_left _ hc)
        · rw [List.getLastD_cons, List.concat_eq_append, List.getLastD_concat] at hl
          exact hl

/-- The dollar semantics reduced: a pattern match of USERNAME_PATTERN is a
core match of the string with one trailing newline stripped. -/
theorem usernamePatternMatch_eq_core_strip (l : List Char) :
    usernamePatternMatch l = usernameCoreMatch (stripTrailingNewline l) := by
  rw [usernamePatternMatch, stripTrailingNewline]
  rcases hnl : (l.getLastD ' ' == '\n') with _ | _
  · simp
  · rcases List.eq_nil_or_concat l with rfl | ⟨ys, y, rfl⟩
    · exact absurd hnl (by decide)
    · rw [List.concat_eq_append] at hnl ⊢
      rw [List.getLastD_concat] at hnl
      have hy : y = '\n' := eq_of_beq hnl
      subst hy
      have hfalse : usernameCoreMatch (ys ++ ['\n']) = false := by
        rcases hc : usernameCoreMatch (ys ++ ['\n']) with _ | _
        · rfl
        · have hch := usernamePattern_chars hc '\n'
            (List.mem_append_right _ (List.mem_singleton_self _))
          exact absurd hch (by decide)
      simp [List.getLastD_concat, List.dropLast_concat, hfalse]

/-- A nonempty string is exactly one with nonempty character data. -/
theorem string_not_isEmpty_iff (s : String) : (!s.isEmpty) = true ↔ s.data ≠ [] := by
  rw [Bool.not_eq_true', ← Bool.not_eq_true]
  rw [show (s.isEmpty = true) = (s.isEmpty : Prop) from rfl]
  rw [String.isEmpty_iff]
  exact not_congr ⟨fun h => by simp [h], fun h => String.ext h⟩

/-- The marker line of M does not survive in a filtered stanza list when the
removed name N is a prefix of M: every stanza that could carry that marker is
itself filtered to its leading blank line. -/
theorem markerLine_not_mem_filtered {home N M : List Char} {us : List (List Char)}
    (hNM : N.isPrefixOf M = true) :
    markerLine M ∉
      (us.map (fun u => if N.isPrefixOf u then [blankLine] else stanzaLines home u)).flatten := by
  intro hm
  rw [List.mem_flatten] at hm
  obtain ⟨b, hb, hmb⟩ := hm
  rw [List.mem_map] at hb
  obtain ⟨u, _, rfl⟩ := hb
  rcases hp : N.isPrefixOf u with _ | _
  · rw [hp, if_neg (by simp)] at hmb
    rw [stanzaLines] at hmb
    simp only [List.mem_cons, List.not_mem_nil, or_false] at hmb
    rcases hmb with h | h | h | h | h | h | h | h
    · exact absurd (show ('#' : Char) = '\n' from congrArg (fun l => l.headD ' ') h)
        (by decide)
    · rw [markerLine, markerLine] at h
      have h2 : M = u :=
        List.append_cancel_left (List.append_cancel_right h)
      rw [← h2] at hp
      rw [hNM] at hp
      exact absurd hp (by decide)
    · exact absurd (show ('#' : Char) = 'H' from congrArg (fun l => l.headD ' ') h)
        (by decide)
    · exact absurd (show ('#' : Char) = ' ' from congrArg (fun l => l.headD ' ') h)
        (by decide)
    · exact absurd (show ('#' : Char) = ' ' from congrArg (fun l => l.headD ' ') h)
        (by decide)
    · exact absurd (show ('#' : Char) = ' ' from congrArg (fun l => l.headD ' ') h)
        (by decide)
    · exact absurd (show ('#' : Char) = ' ' from congrArg (fun l => l.headD ' ') h)
        (by decide)
    · exact absurd (show ('#' : Char) = '\n' from congrArg (fun l => l.headD ' ') h)
        (by decide)
  · rw [hp, if_pos rfl] at hmb
    have h := List.mem_singleton.mp hmb
    exact absurd (show ('#' : Char) = '\n' from congrArg (fun l => l.headD ' ') h)
      (by decide)

/-! ## Claim theorems -/

/-- C9 counterexample: the validator accepts the three-character string of
a, b and a trailing newline, because the dollar of the re module also
matches just before a newline that ends the string; yet that string is not
in the core language of the anchored regex (its last character is not
alphanumeric).  So the validator does not accept exactly the strings
matching the regex read with strict end anchoring. -/
theorem c9_counterexample :
    validate_username "ab\n" = true ∧
    usernameCoreMatch ("ab\n".toList) = false ∧
    isAsciiAlnum (("ab\n".toList).getLastD ' ') = false := by
  refine ⟨by decide, by decide, by decide⟩

/-- C9 amended: the username validator accepts exactly the strings of 1 to
39 characters that USERNAME_PATTERN matches under the dollar semantics of
the re module, that is: after stripping one optional trailing newline, the
remainder is nonempty, begins and ends with an alphanumeric character and
holds only alphanumeric or hyphen characters.  The cited examples hold as
claimed: abc and ab--c are valid, -abc, a 40-character alphanumeric string
and the empty string are invalid. -/
theorem c9_username_validation :
    validate_username "abc" = true ∧
    validate_username "ab--c" = true ∧
    validate_username "-abc" = false ∧
    validate_username "aaaaaaaaaaaaaaaaaaaaaaaaaaaaaaaaaaaaaaaa" = false ∧
    validate_username "" = false ∧
    ∀ s : String, validate_username s = true ↔
      (1 ≤ s.length ∧ s.length ≤ 39 ∧
        stripTrailingNewline s.data ≠ [] ∧
        isAsciiAlnum ((stripTrailingNewline s.data).headD ' ') = true ∧
        isAsciiAlnum ((stripTrailingNewline s.data).getLastD ' ') = true ∧
        ∀ c ∈ stripTrailingNewline s.data, isUsernameInner c = true) := by
  refine ⟨by decide, by decide, by decide, by decide, by decide, ?_⟩
  intro s
  rw [validate_username, Bool.and_eq_true, Bool.and_eq_true,
    string_not_isEmpty_iff, decide_eq_true_eq, usernamePatternMatch_eq_core_strip,
    usernameCoreMatch_iff]
  constructor
  · rintro ⟨⟨hne, hlen⟩, hne2, hh, hl, ha⟩
    refine ⟨?_, hlen, hne2, hh, hl, ha⟩
    rw [show (1 ≤ s.length) = (0 < s.data.length) from rfl, List.length_pos]
    exact hne
  · rintro ⟨h1, hlen, hne2, hh, hl, ha⟩
    rw [show (1 ≤ s.length) = (0 < s.data.length) from rfl, List.length_pos] at h1
    exact ⟨⟨h1, hlen⟩, hne2, hh, hl, ha⟩

/-- C9 witness: the amended characterization evaluated at the concrete name
alice. -/
theorem c9_username_validation_witness : validate_username "alice" = true :=
  (c9_username_validation.2.2.2.2.2 "alice").mpr (by decide)

/-- C5: The remote URL conversion maps the three documented inputs to their
host-alias forms, and yields nothing with a warning on every URL of any
other scheme. -/
theorem c5_url_rewriting :
    convert_url_for_profile ("https://github.com/u/r.git".toList) ("work".toList) =
      (some ("git@github.com-work:u/r.git".toList), false) ∧
    convert_url_for_profile ("git@github.com-old:u/r.git".toList) ("new".toList) =
      (some ("git@github.com-new:u/r.git".toList), false) ∧
    convert_url_for_profile ("git@github.com:u/r.git".toList) ("work".toList) =
      (some ("git@github.com-work:u/r.git".toList), false) ∧
    ∀ url username : List Char,
      pyStartswith ("git@github.com".toList) url = false →
      pyStartswith ("https://github.com/".toList) url = false →
      convert_url_for_profile url username = (none, true) := by
  refine ⟨by decide, by decide, by decide, ?_⟩
  intro url username h1 h2
  rw [convert_url_for_profile, h1, h2]
  simp

/-- C5 witness: an ftp URL is rejected with a warning. -/
theorem c5_url_rewriting_witness :
    convert_url_for_profile ("ftp://host/u/r.git".toList) ("work".toList) = (none, true) :=
  c5_url_rewriting.2.2.2 ("ftp://host/u/r.git".toList) ("work".toList)
    (by decide) (by decide)

/-- C6 counterexample: an uppercase confirmation message is classified as a
success although the captured stream does not contain the lowercase phrase,
so success is not equivalent to literal containment of the phrase. -/
theorem c6_counterexample :
    classify_ssh_test (.completed 1 ("SUCCESSFULLY AUTHENTICATED".toList)) =
      .success ∧
    containsSub successPhrase ("SUCCESSFULLY AUTHENTICATED".toList) = false := by
  constructor
  · rfl
  · decide

/-- C6 amended: the connection test classifies a completed probe as a success
exactly when the lowercased captured stderr contains the confirmation phrase,
regardless of the exit code; any other completed content is an authentication
failure; a probe exceeding the 15-second bound is a timeout, distinct from
both other outcomes. -/
theorem c6_ssh_test_classification (returncode : Int) (stderr : List Char) :
    (classify_ssh_test (.completed returncode stderr) = .success ↔
      containsSub successPhrase (pyLower stderr) = true) ∧
    (containsSub successPhrase (pyLower stderr) = false →
      classify_ssh_test (.completed returncode stderr) = .authFailure) ∧
    classify_ssh_test .timedOut = .timeout ∧
    SshTestOutcome.timeout ≠ SshTestOutcome.authFailure ∧
    SshTestOutcome.timeout ≠ SshTestOutcome.success := by
  refine ⟨?_, ?_, rfl, by decide, by decide⟩
  · rcases h : containsSub successPhrase (pyLower stderr) with _ | _ <;>
      simp [classify_ssh_test, h]
  · intro h
    simp [classify_ssh_test, h]

/-- C6 witness: the amended classification evaluated on a denied probe. -/
theorem c6_ssh_test_classification_witness :
    classify_ssh_test (.completed 255 ("Permission denied (publickey).".toList)) =
      .authFailure :=
  (c6_ssh_test_classification 255 ("Permission denied (publickey).".toList)).2.1
    (by decide)

/-- C2 counterexample: with the key file already present, generate_ssh_key
returns the existing key path, not nothing. -/
theorem c2_counterexample :
    (generate_ssh_key "/home/u" true true "a@b.com" "work").result =
      some "/home/u/.ssh/id_rsa_work" ∧
    (generate_ssh_key "/home/u" true true "a@b.com" "work").result ≠ none := by
  constructor
  · rfl
  · decide

/-- C2 amended: if a key file already exists at the deterministic path, the
function logs a warning and returns the existing key path, invoking no
key-generation tool and appending nothing to the SSH config. -/
theorem c2_existing_key_soft_path (home : String) (toolOk : Bool)
    (email username : String) :
    generate_ssh_key home true toolOk email username =
      { result := some (keyFilePath home username), warned := true,
        keygenInvoked := false, sshConfigAppended := false } := rfl

/-- C2 witness: the amended statement evaluated at concrete inputs. -/
theorem c2_existing_key_soft_path_witness :
    generate_ssh_key "/home/u" true false "a@b.com" "work" =
      { result := some (keyFilePath "/home/u" "work"), warned := true,
        keygenInvoked := false, sshConfigAppended := false } :=
  c2_existing_key_soft_path "/home/u" false "a@b.com" "work"

/-- C1: For every name accepted by the username validator and every email
accepted by the email validator, a profile creation whose key step yields a
path (the key file existed or the tool succeeded) stores under the name key
exactly the three-field record of that name, that email and the
deterministic key path, and the stored key path ends in id_rsa_<name>. -/
theorem c1_create_profile_store_entry (home : String) (keyExists toolOk : Bool)
    (st : Store) (N E : String)
    (hN : validate_username N = true) (hE : validate_email E = true)
    (hkey : keyExists = true ∨ toolOk = true) :
    lookupProfile (create_profile home keyExists toolOk st N E).store N =
      some { name := N, email := E, ssh_key := some (keyFilePath home N) } ∧
    ("id_rsa_" ++ N).toList <:+ (keyFilePath home N).toList := by
  constructor
  · have hres : (generate_ssh_key home keyExists toolOk E N).result =
        some (keyFilePath home N) := by
      rcases hkey with h | h
      · rw [h]; rfl
      · rcases hk2 : keyExists with _ | _
        · rw [h]; rfl
        · rfl
    rw [create_profile, hres]
    exact lookupProfile_storeSet st N _
  · refine ⟨(home ++ "/.ssh/").toList, ?_⟩
    show (home ++ "/.ssh/").data ++ ("id_rsa_" ++ N).data = (keyFilePath home N).data
    rw [keyFilePath, String.data_append, String.data_append, String.data_append,
      String.data_append, List.append_assoc]
    have : ("/.ssh/".data : List Char) ++ "id_rsa_".data = "/.ssh/id_rsa_".data := rfl
    rw [← List.append_assoc ("/.ssh/".data), this]
    rw [List.append_assoc]

/-- C1 witness: the creation property evaluated at a concrete profile. -/
theorem c1_create_profile_store_entry_witness :
    lookupProfile (create_profile "/home/u" false true [] "work" "a@b.com").store
        "work" =
      some { name := "work", email := "a@b.com",
             ssh_key := some (keyFilePath "/home/u" "work") } ∧
    ("id_rsa_" ++ "work").toList <:+ (keyFilePath "/home/u" "work").toList :=
  c1_create_profile_store_entry "/home/u" false true [] "work" "a@b.com"
    (by decide) (by decide) (Or.inr rfl)

/-- C7: A creation attempt for a name already present in the store is
rejected before any side effect: the store is unchanged and not saved, no
key-generation tool is invoked, and the global Git configuration is not
touched. -/
theorem c7_duplicate_name_rejected (home : String) (keyExists toolOk : Bool)
    (st : Store) (N E : String) (hex : (lookupProfile st N).isSome = true) :
    attemptAddProfile home keyExists toolOk st N E =
      { store := st, created := false, keygenInvoked := false,
        storeSaved := false, gitConfigSet := false } := by
  have hacc : acceptNewUsername st N = false := by
    rw [acceptNewUsername, username_exists, hex]
    simp
  rw [attemptAddProfile, hacc]
  simp

/-- C7 witness: the rejection evaluated on a store already holding the
name. -/
theorem c7_duplicate_name_rejected_witness :
    attemptAddProfile "/home/u" false true
        [("work", { name := "work", email := "a@b.com",
                    ssh_key := some "/home/u/.ssh/id_rsa_work" })] "work" "b@c.org" =
      { store := [("work", { name := "work", email := "a@b.com",
                             ssh_key := some "/home/u/.ssh/id_rsa_work" })],
        created := false, keygenInvoked := false,
        storeSaved := false, gitConfigSet := false } :=
  c7_duplicate_name_rejected "/home/u" false true
    [("work", { name := "work", email := "a@b.com",
                ssh_key := some "/home/u/.ssh/id_rsa_work" })] "work" "b@c.org"
    (by decide)

/-- C8: When the active global Git identity differs from the profile being
deleted (or none is set), deletion leaves the global Git configuration
unchanged and still performs, in order, the key-file removal, the SSH-stanza
removal and the store-entry removal, after which the profile is gone from
the store. -/
theorem c8_deletion_frame (st : SysState) (username : String) (p : Profile)
    (k : String) (hk : p.ssh_key = some k)
    (hne : st.gitConfig ≠ some (p.name, p.email))
    (hnd : (st.profiles.map Prod.fst).Nodup) :
    (perform_complete_profile_removal st username p).1.gitConfig = st.gitConfig ∧
    (perform_complete_profile_removal st username p).2 =
      [.removeKeyFiles, .removeSshStanza, .removeStoreEntry] ∧
    lookupProfile (perform_complete_profile_removal st username p).1.profiles
      username = none := by
  have h1 : cleanup_current_profile st p = (st, []) := by
    rcases hc : st.gitConfig with _ | cfg
    · rw [cleanup_current_profile, hc]
    · have hb : (cfg.1 == p.name && cfg.2 == p.email) = false := by
        rcases hb2 : (cfg.1 == p.name && cfg.2 == p.email) with _ | _
        · rfl
        · rw [Bool.and_eq_true] at hb2
          exfalso
          apply hne
          have hcfg : cfg = (p.name, p.email) := by
            rw [← eq_of_beq hb2.1, ← eq_of_beq hb2.2]
          rw [hc, hcfg]
      have hred : cleanup_current_profile st p =
          if (cfg.1 == p.name && cfg.2 == p.email) = true then
            ({ st with gitConfig := none }, [RemovalStep.clearGitConfig])
          else (st, []) := by
        rw [cleanup_current_profile, hc]
      rw [hred, hb]
      simp
  refine ⟨?_, ?_, ?_⟩
  · rw [perform_complete_profile_removal, h1]
    simp [cleanup_ssh_files, hk]
  · rw [perform_complete_profile_removal, h1]
    simp [cleanup_ssh_files, hk]
  · rw [perform_complete_profile_removal, h1]
    simp only [cleanup_ssh_files, hk]
    exact lookupProfile_storeErase hnd

/-- C8 witness: the frame property evaluated on a concrete state whose
active identity differs from the deleted profile. -/
theorem c8_deletion_frame_witness :
    (perform_complete_profile_removal
        { gitConfig := some ("other", "o@x.com"), privKeyExists := true,
          pubKeyExists := true, sshConfig := none,
          profiles := [("work", { name := "work", email := "a@b.com",
                                  ssh_key := some "/home/u/.ssh/id_rsa_work" })] }
        "work"
        { name := "work", email := "a@b.com",
          ssh_key := some "/home/u/.ssh/id_rsa_work" }).1.gitConfig =
      some ("other", "o@x.com") ∧
    (perform_complete_profile_removal
        { gitConfig := some ("other", "o@x.com"), privKeyExists := true,
          pubKeyExists := true, sshConfig := none,
          profiles := [("work", { name := "work", email := "a@b.com",
                                  ssh_key := some "/home/u/.ssh/id_rsa_work" })] }
        "work"
        { name := "work", email := "a@b.com",
          ssh_key := some "/home/u/.ssh/id_rsa_work" }).2 =
      [.removeKeyFiles, .removeSshStanza, .removeStoreEntry] ∧
    lookupProfile
      (perform_complete_profile_removal
          { gitConfig := some ("other", "o@x.com"), privKeyExists := true,
            pubKeyExists := true, sshConfig := none,
            profiles := [("work", { name := "work", email := "a@b.com",
                                    ssh_key := some "/home/u/.ssh/id_rsa_work" })] }
          "work"
          { name := "work", email := "a@b.com",
            ssh_key := some "/home/u/.ssh/id_rsa_work" }).1.profiles "work" = none := by
  refine c8_deletion_frame _ "work" _ "/home/u/.ssh/id_rsa_work" rfl ?_ ?_
  · intro h
    have h2 : ("other" : String) = "work" := congrArg (fun o => (o.getD ("", "")).1) h
    exact absurd h2 (by decide)
  · simp

/-- C3 counterexample: on a file holding two stanzas for the same profile,
the rewrite removes both, not just the first: the result is two blank lines,
not the first stanza dropped with the second left unchanged. -/
theorem c3_counterexample :
    update_ssh_config_file ("work".toList)
        (stanzaLines ("/home/u".toList) ("work".toList) ++
          stanzaLines ("/home/u".toList) ("work".toList)) =
      [blankLine, blankLine] ∧
    [blankLine, blankLine] ≠
      [blankLine] ++ stanzaLines ("/home/u".toList) ("work".toList) := by
  constructor
  · decide
  · decide

/-- C3 amended: removal is a no-op when the config file does not exist;
otherwise, on a file made of whole stanzas, it drops the lines of every
stanza whose marker line contains the trigger text as a substring
(equivalently, for valid names: every stanza of a username having the removed
name as a prefix), from the marker line through the terminating blank line,
and leaves every other line unchanged. -/
theorem c3_remove_stanzas (home N : List Char) (us : List (List Char))
    (hN : usernameCoreMatch N = true)
    (hus : ∀ u ∈ us, usernameCoreMatch u = true) (hhome : ':' ∉ home) :
    remove_from_ssh_config N none = none ∧
    remove_from_ssh_config N (some (us.map (stanzaLines home)).flatten) =
      some (us.map
        (fun u => if N.isPrefixOf u then [blankLine] else stanzaLines home u)).flatten :=
  ⟨rfl, congrArg some (dropProfileStanzas_flatten hN hus hhome)⟩

/-- C3 witness: the amended statement evaluated on a file holding the work
and personal stanzas, removing work. -/
theorem c3_remove_stanzas_witness :
    remove_from_ssh_config ("work".toList) none = none ∧
    remove_from_ssh_config ("work".toList)
        (some ((["work".toList, "personal".toList].map
          (stanzaLines ("/home/u".toList))).flatten)) =
      some ((["work".toList, "personal".toList].map
        (fun u => if ("work".toList).isPrefixOf u then [blankLine]
                  else stanzaLines ("/home/u".toList) u)).flatten) :=
  c3_remove_stanzas ("/home/u".toList) ("work".toList)
    ["work".toList, "personal".toList] (by decide) (by decide) (by decide)

/-- C4 counterexample: removing alice2 rewrites a file whose only stanza
belongs to alice23, although no line of that file equals the exact marker
line of alice2 — so the removal does not match only the exact marker line. -/
theorem c4_counterexample :
    update_ssh_config_file ("alice2".toList)
        (stanzaLines ("/home/u".toList) ("alice23".toList)) = [blankLine] ∧
    (stanzaLines ("/home/u".toList) ("alice23".toList)).all
        (fun l => !(l == markerLine ("alice2".toList))) = true ∧
    stanzaLines ("/home/u".toList) ("alice23".toList) ≠ [blankLine] := by
  refine ⟨by decide, by decide, by decide⟩

/-- C4 amended: for distinct valid profile names N and M with M a substring
of N, removing the stanza of N from a file holding the stanzas of M and N
leaves the stanza of M intact (only the leading blank line of the removed
stanza survives); the removal matches marker lines by containment of the
trigger text, which never matches the marker line of M. -/
theorem c4_substring_profile_preserved (home N M : List Char)
    (hN : usernameCoreMatch N = true) (hM : usernameCoreMatch M = true)
    (hne : M ≠ N) (hinf : M <:+: N) (hhome : ':' ∉ home) :
    update_ssh_config_file N (stanzaLines home M ++ stanzaLines home N) =
      stanzaLines home M ++ [blankLine] := by
  have hlen : M.length < N.length :=
    lt_of_le_of_ne hinf.length_le (fun h => hne (hinf.eq_of_length h))
  have hpM : N.isPrefixOf M = false := by
    rcases hp : N.isPrefixOf M with _ | _
    · rfl
    · exfalso
      rw [List.isPrefixOf_iff_prefix] at hp
      exact absurd hp.length_le (not_le_of_lt hlen)
  have hpN : N.isPrefixOf N = true := by
    rw [List.isPrefixOf_iff_prefix]
  have hstep := @dropProfileStanzas_stanza_append home N N hN hN hhome []
  rw [List.append_nil, hpN] at hstep
  rw [if_pos rfl] at hstep
  rw [update_ssh_config_file, dropProfileStanzas_stanza_append hN hM hhome, hpM,
    hstep]
  simp [dropProfileStanzas]

/-- C4 witness: the amended statement evaluated at alice2 and alice. -/
theorem c4_substring_profile_preserved_witness :
    update_ssh_config_file ("alice2".toList)
        (stanzaLines ("/home/u".toList) ("alice".toList) ++
          stanzaLines ("/home/u".toList) ("alice2".toList)) =
      stanzaLines ("/home/u".toList) ("alice".toList) ++ [blankLine] :=
  c4_substring_profile_preserved ("/home/u".toList) ("alice2".toList)
    ("alice".toList) (by decide) (by decide) (by decide)
    ⟨[], ['2'], rfl⟩ (by decide)

/-- C10: marker lines are matched by substring containment, so when N is a
proper prefix of M, removing the stanzas of N from a file of whole stanzas
removes every matching stanza, including the stanza of M; neither marker
line survives in the rewritten file. -/
theorem c10_substring_marker_matching (home N M : List Char)
    (us : List (List Char)) (hN : usernameCoreMatch N = true)
    (hus : ∀ u ∈ us, usernameCoreMatch u = true) (hhome : ':' ∉ home)
    (hNM : N.isPrefixOf M = true) (hne : N ≠ M)
    (hMmem : M ∈ us) (hNmem : N ∈ us) :
    update_ssh_config_file N (us.map (stanzaLines home)).flatten =
      (us.map
        (fun u => if N.isPrefixOf u then [blankLine] else stanzaLines home u)).flatten ∧
    markerLine M ∉ update_ssh_config_file N (us.map (stanzaLines home)).flatten ∧
    markerLine N ∉ update_ssh_config_file N (us.map (stanzaLines home)).flatten := by
  have heq : update_ssh_config_file N (us.map (stanzaLines home)).flatten =
      (us.map
        (fun u => if N.isPrefixOf u then [blankLine] else stanzaLines home u)).flatten :=
    dropProfileStanzas_flatten hN hus hhome
  refine ⟨heq, ?_, ?_⟩
  · rw [heq]
    exact markerLine_not_mem_filtered hNM
  · rw [heq]
    refine markerLine_not_mem_filtered ?_
    rw [List.isPrefixOf_iff_prefix]

/-- C10 witness: removing alice also removes the alice2 stanza. -/
theorem c10_substring_marker_matching_witness :
    update_ssh_config_file ("alice".toList)
        ((["alice".toList, "alice2".toList].map
          (stanzaLines ("/home/u".toList))).flatten) =
      ((["alice".toList, "alice2".toList].map
        (fun u => if ("alice".toList).isPrefixOf u then [blankLine]
                  else stanzaLines ("/home/u".toList) u)).flatten) ∧
    markerLine ("alice2".toList) ∉
      update_ssh_config_file ("alice".toList)
        ((["alice".toList, "alice2".toList].map
          (stanzaLines ("/home/u".toList))).flatten) ∧
    markerLine ("alice".toList) ∉
      update_ssh_config_file ("alice".toList)
        ((["alice".toList, "alice2".toList].map
          (stanzaLines ("/home/u".toList))).flatten) :=
  c10_substring_marker_matching ("/home/u".toList) ("alice".toList)
    ("alice2".toList) ["alice".toList, "alice2".toList]
    (by decide) (by decide) (by decide) (by decide) (by decide)
    (by decide) (by decide)

end GitSwitch
